import Mathlib

/-!
# Verification of the schema-adaptive GitHub → Notion issue synchronizer

Shallow embedding of the synchronization logic of `notion_sync.py` (full
repository sweep) and `issue_to_notion.py` (single-issue webhook variant).
Python strings are modelled as `List Char` with structural (kernel-reducible)
operations; Python dictionaries as association lists with unconditional
upsert (`aset`) and `.get`-style lookup (`aget`); code that can raise a
runtime exception is modelled in the `Except String` monad.
-/

/-- Python strings, modelled as lists of characters. -/
abbrev Str := List Char

/-- Coercion from Lean string literals into the model. -/
def str (s : String) : Str := s.data

/-- ASCII lowercasing of one character (model of `str.lower` per character). -/
def lowerChar (c : Char) : Char :=
  if 65 ≤ c.toNat ∧ c.toNat ≤ 90 then Char.ofNat (c.toNat + 32) else c

/-- Model of Python `s.lower()`. -/
def toLowerS (s : Str) : Str := s.map lowerChar

/-- Model of Python `s.startswith(p)` (second argument is the candidate head). -/
def startsWithS : Str → Str → Bool
  | _, [] => true
  | [], _ :: _ => false
  | c :: s, p :: ps => c = p && startsWithS s ps

/-- Whitespace characters stripped by Python `str.strip()`. -/
def isSpaceChar (c : Char) : Bool := c = ' ' || c = '\t' || c = '\n' || c = '\r'

/-- Model of Python `s.strip()`. -/
def trimS (s : Str) : Str := ((s.dropWhile isSpaceChar).reverse.dropWhile isSpaceChar).reverse

/-- The part of `s` before the first occurrence of `sep`
    (`s.split(sep, 1)[0]` when `sep` occurs in `s`). -/
def splitFirstKey (sep : Char) : Str → Str
  | [] => []
  | c :: rest => if c = sep then [] else c :: splitFirstKey sep rest

/-- The part of `s` after the first occurrence of `sep`
    (`s.split(sep, 1)[1]` when `sep` occurs in `s`). -/
def splitFirstVal (sep : Char) : Str → Str
  | [] => []
  | c :: rest => if c = sep then rest else splitFirstVal sep rest

/-- Model of Python `s.split(sep)` for a one-character separator. -/
def splitAllS (sep : Char) : Str → List Str
  | [] => [[]]
  | c :: rest =>
    if c = sep then [] :: splitAllS sep rest
    else
      match splitAllS sep rest with
      | h :: t => (c :: h) :: t
      | [] => [[c]]

/-- Model of Python `s.rstrip(sep)` for a one-character strip set. -/
def dropTrailing (sep : Char) (s : Str) : Str := (s.reverse.dropWhile (· = sep)).reverse

instance {ε α : Type} [DecidableEq ε] [DecidableEq α] : DecidableEq (Except ε α) := fun a b =>
  match a, b with
  | .error e, .error f => if h : e = f then .isTrue (by simp [h]) else .isFalse (by simp [h])
  | .error _, .ok _ => .isFalse (by simp)
  | .ok _, .error _ => .isFalse (by simp)
  | .ok a, .ok b => if h : a = b then .isTrue (by simp [h]) else .isFalse (by simp [h])

/-- `o or ""`: the string, with `None` replaced by the empty string. -/
def orEmpty : Option Str → Str
  | some s => s
  | none => []

/-- Python truthiness of an optional string: `None` and `""` are falsy. -/
def strTruthy : Option Str → Bool
  | none => false
  | some s => !s.isEmpty

/-- Python dictionary `d.get(k)`: lookup in an association list. -/
def aget {β : Type} : List (Str × β) → Str → Option β
  | [], _ => none
  | (k', v) :: rest, k => if k' = k then some v else aget rest k

/-- Python dictionary `d[k] = v`: unconditional upsert in an association list
    (replaces in place if the key exists, appends otherwise). -/
def aset {β : Type} : List (Str × β) → Str → β → List (Str × β)
  | [], k, v => [(k, v)]
  | (k', v') :: rest, k, v => if k' = k then (k, v) :: rest else (k', v') :: aset rest k v

/-! ## Label parsing (`parse_label_map`, identical in both scripts)

```python
def parse_label_map(labels):
    m = {}
    for l in labels:
        if ":" in l:
            k, v = l.split(":", 1)
            m[k.lower()] = v
    return m
``` -/

/-- Model of Python `":" in l`. -/
def hasColon (l : Str) : Bool := l.contains ':'

/-- One iteration of the `parse_label_map` loop. -/
def labelStep (m : List (Str × Str)) (l : Str) : List (Str × Str) :=
  if hasColon l then aset m (toLowerS (splitFirstKey ':' l)) (splitFirstVal ':' l) else m

/-- `parse_label_map` on a list of (non-null) label name strings. -/
def parse_label_map (labels : List Str) : List (Str × Str) := labels.foldl labelStep []

/-! ## Notion wire values, payload dictionaries, data model -/

/-- Wire shapes for Notion property payload values (and for property values read
    back from an existing Notion page).  `none` inside a field models JSON null. -/
inductive PropValue where
  | titleV (content : Str)
  | richTextV (content : Str)
  | selectV (name : Str)
  | multiSelectV (names : List (Option Str))
  | peopleV (ids : List (Option Str))
  | numberV (n : Option Int)
  | urlV (u : Option Str)
  | dateV (start : Str)
  deriving DecidableEq, Repr

/-- A Notion properties dictionary. -/
abbrev Props := List (Str × PropValue)

/-- Conditionally set a key: used for the `if payload: props.update(payload)` and
    `if key in map: props.update(...)` patterns of the source. -/
def asetOpt (ps : Props) (k : Str) : Option PropValue → Props
  | some v => aset ps k v
  | none => ps

/-- Notion DB schema: property name → property type string
    (`DB_SCHEMA = {name: info.get("type")}`). -/
abbrev Schema := List (Str × Str)

/-- `NOTION_PEOPLE_MAP`: GitHub login → Notion user id; an entry whose value is
    `none` models a JSON null in `NOTION_PEOPLE_MAP_JSON`. -/
abbrev PeopleMap := List (Str × Option Str)

/-- `PROJECT_MAP`: repo short name → Notion project name. -/
abbrev ProjectMap := List (Str × Str)

/-! Notion DB property names (identical constants in both scripts). -/

def PROP_TITLE : Str := str "Task"
def PROP_GH_ID : Str := str "GitHub ID"
def PROP_REPO : Str := str "Repo"
def PROP_PROJECT : Str := str "Project"
def PROP_TYPE : Str := str "Type"
def PROP_PRIORITY : Str := str "Priority"
def PROP_SPRINT : Str := str "Sprint"
def PROP_LABELS : Str := str "Labels"
def PROP_STATUS : Str := str "Status"
def PROP_ASSIGNEE : Str := str "Assigned To"
def PROP_BODY : Str := str "Notes"
def PROP_ISSUE_URL : Str := str "GitHub Link"
def PROP_CREATED : Str := str "Created At"
def PROP_UPDATED : Str := str "Updated At"

/-- An external issue record, as the scripts read it out of the GitHub JSON.
    For fields where the scripts distinguish an absent key from a JSON null,
    the type is `Option (Option _)`: `none` = key absent, `some none` = null. -/
structure Issue where
  id : Option Int
  title : Option (Option Str)
  body : Option Str
  labels : List (Option Str)
  assignee : Option (Option Str)
  milestoneTitle : Option (Option (Option Str))
  created_at : Option Str
  updated_at : Option Str
  state : Option Str
  html_url : Option Str
  repository_url : Option Str
  deriving DecidableEq, Repr

/-!
`Issue` field conventions (matching how each field is consumed):
- `id`: `issue.get("id")`; `none` = absent or null.
- `title`: `none` = key absent (`.get("title","")` yields `""`), `some none` =
  null (slicing then raises), `some (some s)` = string.
- `body`: `none` = absent or null (`or ""` erases the difference).
- `labels`: the list `[l.get("name") for l in issue.get("labels",[])]`; an
  element `none` is a label object without a (non-null) name.
- `assignee`: `none` = absent/null/falsy assignee object, `some login?` = a
  truthy assignee object with `login? = assignee.get("login")`.
- `milestoneTitle`: `none` = no (truthy) milestone object; `some t` = a truthy
  milestone dict whose `"title"` key is absent (`t = none`), null
  (`t = some none`) or the string `s` (`t = some (some s)`).
- `created_at`, `updated_at`: `none` = absent or null.
- `state`: `none` = absent (default `"open"`) or null (also not `"closed"`).
- `html_url`, `repository_url`: `none` = absent or null.
-/

/-! ## Field-kind-adaptive value encoders (identical in both scripts) -/

/-- The value shape chosen by `select_payload` for one property. -/
def select_value (schema : Schema) (prop_name value : Str) : PropValue :=
  if aget schema prop_name = some (str "select") then .selectV value
  else if aget schema prop_name = some (str "multi_select") then .multiSelectV [some value]
  else .richTextV value

/-- `select_payload(prop_name, value)`: a one-entry properties dict. -/
def select_payload (schema : Schema) (prop_name value : Str) : Props :=
  [(prop_name, select_value schema prop_name value)]

/-- The optional value chosen by `multi_select_payload` (`none` = the Python
    function returns `None`, i.e. the field is omitted). -/
def multi_select_value (schema : Schema) (prop_name : Str) (values : List (Option Str)) : Option PropValue :=
  if values.isEmpty then
    if aget schema prop_name = some (str "multi_select") then some (.multiSelectV []) else none
  else
    if aget schema prop_name = some (str "multi_select") then some (.multiSelectV values) else none

/-- `multi_select_payload(prop_name, values)`: `None` or a one-entry dict. -/
def multi_select_payload (schema : Schema) (prop_name : Str) (values : List (Option Str)) : Option Props :=
  (multi_select_value schema prop_name values).map (fun v => [(prop_name, v)])

/-! ## Shared helpers of both builders -/

/-- `title = issue.get("title","")[:200]`: absent key defaults to `""`;
    a present-but-null title raises `TypeError` when sliced. -/
def titleOf : Option (Option Str) → Except Str Str
  | none => .ok []
  | some none => .error (str "TypeError: NoneType is not subscriptable")
  | some (some s) => .ok (s.take 200)

/-- `parse_label_map` over raw label-name entries, where a label object without
    a name contributed `None` to the list: `":" in None` raises `TypeError`. -/
def parse_label_map_chk : List (Option Str) → List (Str × Str) → Except Str (List (Str × Str))
  | [], m => .ok m
  | none :: _, _ => .error (str "TypeError: argument of type NoneType is not iterable")
  | some l :: rest, m => parse_label_map_chk rest (labelStep m l)

/-- Derivation of `repo_full` from `issue.get("repository_url","")` in
    `notion_sync.build_properties` (default `"unknown/unknown"`). -/
def repo_full_of (repository_url : Option Str) : Str :=
  match repository_url with
  | some s =>
    if s.isEmpty then str "unknown/unknown"
    else
      match (splitAllS '/' (dropTrailing '/' s)).reverse with
      | last :: prev :: _ => prev ++ [ '/' ] ++ last
      | _ => str "unknown/unknown"
  | none => str "unknown/unknown"

/-- `repo_full.split("/",1)[1] if "/" in repo_full else repo_full`. -/
def shortRepo (repo_full : Str) : Str :=
  if repo_full.contains '/' then splitFirstVal '/' repo_full else repo_full

/-- `resolve_project_name_from_repo` / `resolve_project`: exact short-name hit,
    then first case-insensitive hit in insertion order, else `"All"`. -/
def resolve_project_name_from_repo (projectMap : ProjectMap) (repo_full : Str) : Str :=
  let short := shortRepo repo_full
  match aget projectMap short with
  | some v => v
  | none =>
    match projectMap.find? (fun kv => toLowerS kv.1 = toLowerS short) with
    | some kv => kv.2
    | none => str "All"

/-- `if created: props[PROP_CREATED] = {"date": {"start": created}}` — the value
    set for a timestamp property, `none` when the source field is missing/falsy. -/
def dateValueIf : Option Str → Option PropValue
  | some c => if c.isEmpty then none else some (.dateV c)
  | none => none

/-! ## Reading logical fields back out of a properties dict (as the diff does) -/

/-- `"".join(p["text"]["content"] for p in props.get(k,{}).get("title",[]))`. -/
def titleContent (ps : Props) (k : Str) : Str :=
  match aget ps k with
  | some (.titleV s) => s
  | _ => []

/-- `"".join(p["text"]["content"] for p in props.get(k,{}).get("rich_text",[]))`. -/
def richContent (ps : Props) (k : Str) : Str :=
  match aget ps k with
  | some (.richTextV s) => s
  | _ => []

/-- `props.get(k,{}).get("select",{}).get("name","")`. -/
def selName (ps : Props) (k : Str) : Str :=
  match aget ps k with
  | some (.selectV s) => s
  | _ => []

/-- `props.get(k,{}).get("select",{}).get("name")` (no default: `None`). -/
def statusSelNameOpt (ps : Props) : Option Str :=
  match aget ps PROP_STATUS with
  | some (.selectV s) => some s
  | _ => none

/-- `[m.get("name") for m in props.get(k,{}).get("multi_select",[])]`. -/
def msNames (ps : Props) (k : Str) : List (Option Str) :=
  match aget ps k with
  | some (.multiSelectV l) => l
  | _ => []

/-- Python `set(a) == set(b)` for the label-name lists. -/
def sameSet (a b : List (Option Str)) : Bool :=
  a.all (b.contains ·) && b.all (a.contains ·)

/-! ## The full-repository-sweep variant (`notion_sync.py`) -/

namespace NotionSync

/-- `people_payload` value (`notion_sync.py`): a `people`-kind property holds the
    resolved id when `NOTION_PEOPLE_MAP.get(login)` is truthy, else an empty
    reference list; other kinds degrade to free text of the login (or `""`). -/
def people_value (schema : Schema) (peopleMap : PeopleMap) (prop_name : Str)
    (gh_login : Option Str) : PropValue :=
  if aget schema prop_name = some (str "people") then
    if strTruthy gh_login then
      let notion_id := (aget peopleMap (orEmpty gh_login)).join
      if strTruthy notion_id then .peopleV [notion_id] else .peopleV []
    else .peopleV []
  else .richTextV (orEmpty gh_login)

/-- `people_payload` as a one-entry dict. -/
def people_payload (schema : Schema) (peopleMap : PeopleMap) (prop_name : Str)
    (gh_login : Option Str) : Props :=
  [(prop_name, people_value schema peopleMap prop_name gh_login)]

/-- The label loop of `resolve_sprint_from_issue`: first label whose lowercased
    form starts with `"sprint:"` AND whose after-colon part strips to non-empty
    returns `"Sprint <stripped>"`; empty-valued sprint labels are skipped
    (`if val:` fails and the loop continues); `l.lower()` raises on a null name. -/
def find_sprint_label : List (Option Str) → Except Str (Option Str)
  | [] => .ok none
  | none :: _ => .error (str "AttributeError: NoneType has no attribute lower")
  | some l :: rest =>
    if startsWithS (toLowerS l) (str "sprint:") then
      let val := trimS (splitFirstVal ':' l)
      if val.isEmpty then find_sprint_label rest
      else .ok (some (str "Sprint " ++ val))
    else find_sprint_label rest

/-- `resolve_sprint_from_issue(labels, milestone)`: label first, else a truthy
    milestone title, stripped (both branches of the `startswith("sprint")` check
    return the same stripped title), else `None`. -/
def resolve_sprint_from_issue (labels : List (Option Str))
    (milestoneTitle : Option (Option (Option Str))) : Except Str (Option Str) :=
  match find_sprint_label labels with
  | .error e => .error e
  | .ok (some s) => .ok (some s)
  | .ok none =>
    match milestoneTitle with
    | some (some (some t)) =>
      if t.isEmpty then .ok none
      else
        let title := trimS t
        if title.isEmpty then .ok none else .ok (some title)
    | _ => .ok none

/-- The pure part of `build_properties` after the three fallible subcomputations
    (title slice, label-map parse, sprint resolution) have succeeded.  Each step
    mirrors one `props[...] = ...` / `props.update(...)` statement in order. -/
def build_core (schema : Schema) (peopleMap : PeopleMap) (projectMap : ProjectMap)
    (issue : Issue) (title : Str) (sprint_val : Option Str)
    (label_map : List (Str × Str)) : Props :=
  let short_repo := shortRepo (repo_full_of issue.repository_url)
  let body := orEmpty issue.body
  let labels := issue.labels
  let gh_assignee := issue.assignee.join
  let status_val := if issue.state.getD (str "open") = str "closed" then str "Done" else str "Backlog"
  let p := [(PROP_TITLE, PropValue.titleV title)]
  let p := aset p PROP_GH_ID (.numberV issue.id)
  let p := aset p PROP_REPO (select_value schema PROP_REPO short_repo)
  let p := aset p PROP_PROJECT (select_value schema PROP_PROJECT (resolve_project_name_from_repo projectMap short_repo))
  let p := aset p PROP_ISSUE_URL (.urlV issue.html_url)
  let p := aset p PROP_STATUS (select_value schema PROP_STATUS status_val)
  let p := asetOpt p PROP_LABELS (multi_select_value schema PROP_LABELS labels)
  let p := asetOpt p PROP_TYPE ((aget label_map (str "type")).map (select_value schema PROP_TYPE))
  let p := asetOpt p PROP_PRIORITY ((aget label_map (str "priority")).map (select_value schema PROP_PRIORITY))
  let p := asetOpt p PROP_SPRINT (sprint_val.map (select_value schema PROP_SPRINT))
  let p := aset p PROP_ASSIGNEE (people_value schema peopleMap PROP_ASSIGNEE gh_assignee)
  let p := aset p PROP_BODY (.richTextV body)
  let p := asetOpt p PROP_CREATED (dateValueIf issue.created_at)
  let p := asetOpt p PROP_UPDATED (dateValueIf issue.updated_at)
  let p := if aget schema PROP_LABELS ≠ some (str "multi_select") ∧ ¬labels.isEmpty then
      aset p PROP_BODY (.richTextV (richContent p PROP_BODY ++ str "\n\nLabels: " ++
        List.intercalate (str ", ") (labels.map orEmpty)))
    else p
  let p := if aget schema PROP_ASSIGNEE = some (str "people") ∧ strTruthy gh_assignee ∧
      (aget peopleMap (orEmpty gh_assignee)).join = none then
      aset p PROP_BODY (.richTextV (richContent p PROP_BODY ++ str "\n\nGitHub assignee: " ++
        orEmpty gh_assignee))
    else p
  p

/-- `build_properties(issue)` of `notion_sync.py`.  The `.error` results model
    the `TypeError` / `AttributeError` exceptions the Python code can raise on
    a present-but-null title or a label object without a name (in the label
    intercalation of `build_core` a `none` name is unreachable because
    `parse_label_map` has already raised on it). -/
def build_properties (schema : Schema) (peopleMap : PeopleMap) (projectMap : ProjectMap)
    (issue : Issue) : Except Str Props :=
  match titleOf issue.title with
  | .error e => .error e
  | .ok title =>
    match parse_label_map_chk issue.labels [] with
    | .error e => .error e
    | .ok label_map =>
      match resolve_sprint_from_issue issue.labels issue.milestoneTitle with
      | .error e => .error e
      | .ok sprint_val => .ok (build_core schema peopleMap projectMap issue title sprint_val label_map)

/-- `properties_differ(existing, new_props)` of `notion_sync.py`: the chain of
    early `return True` statements is a short-circuit disjunction; the
    `except: return True` branch is unreachable here because every read in the
    model is total. -/
def properties_differ (schema : Schema) (existingProps new_props : Props) : Bool :=
  (trimS (titleContent existingProps PROP_TITLE) != trimS (titleContent new_props PROP_TITLE))
  || ((aget schema PROP_PROJECT == some (str "select")) &&
      (selName existingProps PROP_PROJECT != selName new_props PROP_PROJECT))
  || ((aget schema PROP_TYPE == some (str "select")) &&
      (selName existingProps PROP_TYPE != selName new_props PROP_TYPE))
  || ((aget schema PROP_PRIORITY == some (str "select")) &&
      (selName existingProps PROP_PRIORITY != selName new_props PROP_PRIORITY))
  || ((aget schema PROP_SPRINT == some (str "select")) &&
      (selName existingProps PROP_SPRINT != selName new_props PROP_SPRINT))
  || ((aget schema PROP_LABELS == some (str "multi_select")) &&
      !sameSet (msNames existingProps PROP_LABELS) (msNames new_props PROP_LABELS))
  || (trimS (richContent existingProps PROP_BODY) != trimS (richContent new_props PROP_BODY))
  || ((selName new_props PROP_STATUS == str "Done") && (selName existingProps PROP_STATUS != str "Done"))

end NotionSync

/-- The restricted update payload built in `sync_repo` (and identically in
    `issue_to_notion.main`) once `properties_differ` reports a difference.  The
    `getD` defaults are unreachable: the builder always sets Title and Notes,
    and each conditional copy is guarded by presence in `new_props`. -/
def update_payload (schema : Schema) (new_props : Props) : Props :=
  let u : Props := [(PROP_TITLE, (aget new_props PROP_TITLE).getD (.titleV [])),
                    (PROP_BODY, (aget new_props PROP_BODY).getD (.richTextV []))]
  let u := if (aget new_props PROP_PROJECT).isSome ∧ aget schema PROP_PROJECT = some (str "select") then
      aset u PROP_PROJECT ((aget new_props PROP_PROJECT).getD (.selectV [])) else u
  let u := if (aget new_props PROP_TYPE).isSome ∧ aget schema PROP_TYPE = some (str "select") then
      aset u PROP_TYPE ((aget new_props PROP_TYPE).getD (.selectV [])) else u
  let u := if (aget new_props PROP_PRIORITY).isSome ∧ aget schema PROP_PRIORITY = some (str "select") then
      aset u PROP_PRIORITY ((aget new_props PROP_PRIORITY).getD (.selectV [])) else u
  let u := if (aget new_props PROP_SPRINT).isSome ∧ aget schema PROP_SPRINT = some (str "select") then
      aset u PROP_SPRINT ((aget new_props PROP_SPRINT).getD (.selectV [])) else u
  let u := if aget schema PROP_LABELS = some (str "multi_select") ∧ (aget new_props PROP_LABELS).isSome then
      aset u PROP_LABELS ((aget new_props PROP_LABELS).getD (.multiSelectV [])) else u
  let u := if statusSelNameOpt new_props = some (str "Done") then
      aset u PROP_STATUS (.selectV (str "Done")) else u
  u

/-! ## The single-issue webhook variant (`issue_to_notion.py`) -/

namespace IssueToNotion

/-- `people_payload` value (`issue_to_notion.py`): membership test
    `gh_login in NOTION_PEOPLE_MAP` instead of a truthiness test on the mapped
    id — a null mapped id is emitted as a person reference with a null id. -/
def people_value (schema : Schema) (peopleMap : PeopleMap) (prop_name : Str)
    (gh_login : Option Str) : PropValue :=
  if aget schema prop_name = some (str "people") then
    if strTruthy gh_login ∧ (aget peopleMap (orEmpty gh_login)).isSome then
      .peopleV [(aget peopleMap (orEmpty gh_login)).join]
    else .peopleV []
  else .richTextV (orEmpty gh_login)

/-- `people_payload` as a one-entry dict. -/
def people_payload (schema : Schema) (peopleMap : PeopleMap) (prop_name : Str)
    (gh_login : Option Str) : Props :=
  [(prop_name, people_value schema peopleMap prop_name gh_login)]

/-- The sprint label loop of `issue_to_notion.build_properties`: BREAKS at the
    first label whose lowercased form starts with `"sprint:"`, even when the
    after-colon part strips to empty (yielding the value `"Sprint "`). -/
def sprint_from_labels : List (Option Str) → Except Str (Option Str)
  | [] => .ok none
  | none :: _ => .error (str "AttributeError: NoneType has no attribute lower")
  | some l :: rest =>
    if startsWithS (toLowerS l) (str "sprint:") then
      .ok (some (str "Sprint " ++ trimS (splitFirstVal ':' l)))
    else sprint_from_labels rest

/-- Sprint derivation of `issue_to_notion.build_properties`: label loop, then
    `issue["milestone"].get("title","").strip()` — which raises on a milestone
    whose `"title"` key holds null (`None.strip()`), unlike the sweep variant. -/
def resolve_sprint (labels : List (Option Str))
    (milestoneTitle : Option (Option (Option Str))) : Except Str (Option Str) :=
  match sprint_from_labels labels with
  | .error e => .error e
  | .ok (some s) => .ok (some s)
  | .ok none =>
    match milestoneTitle with
    | none => .ok none
    | some none => .ok none
    | some (some none) => .error (str "AttributeError: NoneType has no attribute strip")
    | some (some (some t)) =>
      let mtitle := trimS t
      if mtitle.isEmpty then .ok none else .ok (some mtitle)

/-- The pure part of `issue_to_notion.build_properties`; `repo_full` comes from
    the `--repo` argument instead of the issue record. -/
def build_core (schema : Schema) (peopleMap : PeopleMap) (projectMap : ProjectMap)
    (issue : Issue) (repo_full : Str) (title : Str) (sprint_val : Option Str)
    (label_map : List (Str × Str)) : Props :=
  let short_repo := shortRepo repo_full
  let body := orEmpty issue.body
  let labels := issue.labels
  let gh_assignee := issue.assignee.join
  let status_val := if issue.state.getD (str "open") = str "closed" then str "Done" else str "Backlog"
  let p := [(PROP_TITLE, PropValue.titleV title)]
  let p := aset p PROP_GH_ID (.numberV issue.id)
  let p := aset p PROP_REPO (select_value schema PROP_REPO short_repo)
  let p := aset p PROP_PROJECT (select_value schema PROP_PROJECT (resolve_project_name_from_repo projectMap short_repo))
  let p := aset p PROP_ISSUE_URL (.urlV issue.html_url)
  let p := aset p PROP_STATUS (select_value schema PROP_STATUS status_val)
  let p := asetOpt p PROP_LABELS (multi_select_value schema PROP_LABELS labels)
  let p := asetOpt p PROP_TYPE ((aget label_map (str "type")).map (select_value schema PROP_TYPE))
  let p := asetOpt p PROP_PRIORITY ((aget label_map (str "priority")).map (select_value schema PROP_PRIORITY))
  let p := asetOpt p PROP_SPRINT (sprint_val.map (select_value schema PROP_SPRINT))
  let p := aset p PROP_ASSIGNEE (people_value schema peopleMap PROP_ASSIGNEE gh_assignee)
  let p := aset p PROP_BODY (.richTextV body)
  let p := asetOpt p PROP_CREATED (dateValueIf issue.created_at)
  let p := asetOpt p PROP_UPDATED (dateValueIf issue.updated_at)
  let p := if aget schema PROP_LABELS ≠ some (str "multi_select") ∧ ¬labels.isEmpty then
      aset p PROP_BODY (.richTextV (richContent p PROP_BODY ++ str "\n\nLabels: " ++
        List.intercalate (str ", ") (labels.map orEmpty)))
    else p
  let p := if aget schema PROP_ASSIGNEE = some (str "people") ∧ strTruthy gh_assignee ∧
      aget peopleMap (orEmpty gh_assignee) = none then
      aset p PROP_BODY (.richTextV (richContent p PROP_BODY ++ str "\n\nGitHub assignee: " ++
        orEmpty gh_assignee))
    else p
  p

/-- `build_properties(issue, repo_full)` of `issue_to_notion.py`. -/
def build_properties (schema : Schema) (peopleMap : PeopleMap) (projectMap : ProjectMap)
    (issue : Issue) (repo_full : Str) : Except Str Props :=
  match titleOf issue.title with
  | .error e => .error e
  | .ok title =>
    match parse_label_map_chk issue.labels [] with
    | .error e => .error e
    | .ok label_map =>
      match resolve_sprint issue.labels issue.milestoneTitle with
      | .error e => .error e
      | .ok sprint_val => .ok (build_core schema peopleMap projectMap issue repo_full title sprint_val label_map)

/-- `properties_differ` of `issue_to_notion.py`: the same comparisons as the
    sweep variant, checked in the order title, status, body, selects, labels. -/
def properties_differ (schema : Schema) (existingProps new_props : Props) : Bool :=
  (trimS (titleContent existingProps PROP_TITLE) != trimS (titleContent new_props PROP_TITLE))
  || ((selName new_props PROP_STATUS == str "Done") && (selName existingProps PROP_STATUS != str "Done"))
  || (trimS (richContent existingProps PROP_BODY) != trimS (richContent new_props PROP_BODY))
  || ((aget schema PROP_PROJECT == some (str "select")) &&
      (selName existingProps PROP_PROJECT != selName new_props PROP_PROJECT))
  || ((aget schema PROP_TYPE == some (str "select")) &&
      (selName existingProps PROP_TYPE != selName new_props PROP_TYPE))
  || ((aget schema PROP_PRIORITY == some (str "select")) &&
      (selName existingProps PROP_PRIORITY != selName new_props PROP_PRIORITY))
  || ((aget schema PROP_SPRINT == some (str "select")) &&
      (selName existingProps PROP_SPRINT != selName new_props PROP_SPRINT))
  || ((aget schema PROP_LABELS == some (str "multi_select")) &&
      !sameSet (msNames existingProps PROP_LABELS) (msNames new_props PROP_LABELS))

end IssueToNotion


/-- The payload of a successful build (used to state concrete evaluations of the
    builders; an error carries no payload). -/
def payloadOf : Except Str Props → Props
  | .ok p => p
  | .error _ => []

/-- The Sprint derivation rule as amended for claim C5: (a) the first label whose
    lowercased form starts with `"sprint:"` and whose after-first-colon part
    strips to non-empty yields `"Sprint "` + the stripped part, regardless of
    any milestone; else (b) a milestone title that strips to non-empty yields
    the STRIPPED title; else (c) the field is omitted. -/
def sprint_rule_amended (labels : List Str) (milestoneTitle : Option (Option (Option Str))) : Option Str :=
  match labels.find? (fun l => startsWithS (toLowerS l) (str "sprint:") && !(trimS (splitFirstVal ':' l)).isEmpty) with
  | some l => some (str "Sprint " ++ trimS (splitFirstVal ':' l))
  | none =>
    match milestoneTitle with
    | some (some (some t)) => if (trimS t).isEmpty then none else some (trimS t)
    | _ => none

/-- An issue whose `"title"` key is present but null. -/
def issueNullTitle : Issue :=
  { id := some 1, title := some none, body := none, labels := [], assignee := none,
    milestoneTitle := none, created_at := none, updated_at := none, state := none,
    html_url := none, repository_url := none }

/-- A plain well-formed issue. -/
def issueC3w : Issue :=
  { id := some 7, title := some (some (str "Fix crash")), body := some (str "details"),
    labels := [some (str "type:feature")], assignee := none, milestoneTitle := none,
    created_at := some (str "2024-01-01"), updated_at := none, state := some (str "open"),
    html_url := some (str "https://x/7"), repository_url := none }

/-- An issue with no id, no url and no timestamps at the source. -/
def issueC7x : Issue :=
  { id := none, title := some (some (str "t")), body := none, labels := [], assignee := none,
    milestoneTitle := none, created_at := none, updated_at := none, state := none,
    html_url := none, repository_url := none }

/-- An issue supplying id, url and a created timestamp. -/
def issueC7w : Issue :=
  { id := some 5, title := some (some (str "t")), body := none, labels := [], assignee := none,
    milestoneTitle := none, created_at := some (str "2024-05-05"), updated_at := none,
    state := none, html_url := some (str "https://x/5"), repository_url := none }

/-- An issue with an empty label list. -/
def issueC8w : Issue :=
  { id := some 8, title := some (some (str "t")), body := none, labels := [], assignee := none,
    milestoneTitle := none, created_at := none, updated_at := none, state := none,
    html_url := none, repository_url := none }

/-- An issue carrying a `"sprint:"` label with an empty value. -/
def issueC9x : Issue :=
  { id := some 9, title := some (some (str "t")), body := none,
    labels := [some (str "sprint:")], assignee := none, milestoneTitle := none,
    created_at := none, updated_at := none, state := none, html_url := none,
    repository_url := none }

/-- A well-formed issue with labels, milestone and resolvable assignee. -/
def issueC9w : Issue :=
  { id := some 10, title := some (some (str "Add tests")), body := some (str "b"),
    labels := [some (str "type:bug"), some (str "priority:high")], assignee := some (some (str "alice")),
    milestoneTitle := some (some (some (str "Sprint 2"))), created_at := some (str "2024-02-02"),
    updated_at := some (str "2024-03-03"), state := some (str "closed"),
    html_url := some (str "https://x/10"),
    repository_url := some (str "https://api.github.com/repos/me/proj") }

/-- The Sprint derivation rule of the single-issue variant as amended for claim
    C5: the label loop stops at the FIRST label whose lowercased form starts
    with `"sprint:"` and yields `"Sprint "` + the stripped after-colon part even
    when that part strips to empty; the milestone fallback is as in the sweep
    variant (stripped title, non-empty). -/
def sprint_rule_single_amended (labels : List Str) (milestoneTitle : Option (Option (Option Str))) : Option Str :=
  match labels.find? (fun l => startsWithS (toLowerS l) (str "sprint:")) with
  | some l => some (str "Sprint " ++ trimS (splitFirstVal ':' l))
  | none =>
    match milestoneTitle with
    | some (some (some t)) => if (trimS t).isEmpty then none else some (trimS t)
    | _ => none

/-- An issue whose milestone object has a present-but-null `"title"` key. -/
def issueNullMilestoneTitle : Issue :=
  { id := some 2, title := some (some (str "t")), body := none, labels := [], assignee := none,
    milestoneTitle := some (some none), created_at := none, updated_at := none, state := none,
    html_url := none, repository_url := none }

/-! ## Theorems -/

theorem aget_aset_self {β : Type} (m : List (Str × β)) (k : Str) (v : β) :
    aget (aset m k v) k = some v := by
  induction m with
  | nil => simp [aget, aset]
  | cons hd tl ih =>
    obtain ⟨k', v'⟩ := hd
    by_cases h : k' = k
    · simp [aget, aset, h]
    · simp [aget, aset, h, ih]

theorem aget_aset_ne {β : Type} (m : List (Str × β)) (k' k : Str) (v : β) (h : k' ≠ k) :
    aget (aset m k' v) k = aget m k := by
  induction m with
  | nil => simp [aget, aset, h]
  | cons hd tl ih =>
    obtain ⟨k₀, v₀⟩ := hd
    by_cases h0 : k₀ = k'
    · subst h0
      simp [aget, aset, h]
    · simp [aget, aset, h0, ih]

/-- Membership of a looked-up binding (used to transfer map-wide hypotheses). -/
theorem aget_mem {β : Type} (m : List (Str × β)) (k : Str) (v : β)
    (h : aget m k = some v) : (k, v) ∈ m := by
  induction m with
  | nil => simp [aget] at h
  | cons hd tl ih =>
    obtain ⟨k', v'⟩ := hd
    by_cases h0 : k' = k
    · subst h0
      simp [aget] at h
      simp [h]
    · simp [aget, h0] at h
      exact List.mem_cons_of_mem _ (ih h)

theorem aget_foldl_labelStep (post : List Str) (m : List (Str × Str)) (k : Str)
    (h : ∀ l ∈ post, ¬(hasColon l = true ∧ toLowerS (splitFirstKey ':' l) = k)) :
    aget (post.foldl labelStep m) k = aget m k := by
  induction post generalizing m with
  | nil => rfl
  | cons l rest ih =>
    have hstep : aget (labelStep m l) k = aget m k := by
      unfold labelStep
      by_cases hc : hasColon l
      · have hk : toLowerS (splitFirstKey ':' l) ≠ k := by
          intro he
          exact h l (List.mem_cons_self l rest) ⟨hc, he⟩
        simp [hc, aget_aset_ne _ _ _ _ hk]
      · simp [hc]
    have := ih (labelStep m l) (fun l' hl' => h l' (List.mem_cons_of_mem _ hl'))
    simpa [List.foldl_cons, hstep] using this

theorem aget_foldl_labelStep_some (labels : List Str) (m : List (Str × Str)) (k v : Str)
    (h : aget (labels.foldl labelStep m) k = some v) :
    (∃ l, l ∈ labels ∧ hasColon l = true ∧ toLowerS (splitFirstKey ':' l) = k ∧
      splitFirstVal ':' l = v) ∨ aget m k = some v := by
  induction labels generalizing m with
  | nil => exact Or.inr h
  | cons l rest ih =>
    rcases ih (labelStep m l) h with hmem | hbase
    · obtain ⟨l', hl', hrest⟩ := hmem
      exact Or.inl ⟨l', List.mem_cons_of_mem _ hl', hrest⟩
    · unfold labelStep at hbase
      by_cases hc : hasColon l
      · simp only [hc, if_true] at hbase
        by_cases hk : toLowerS (splitFirstKey ':' l) = k
        · subst hk
          rw [aget_aset_self] at hbase
          exact Or.inl ⟨l, List.mem_cons_self l rest, hc, rfl, (Option.some_inj.mp hbase)⟩
        · rw [aget_aset_ne _ _ _ _ hk] at hbase
          exact Or.inr hbase
      · simp only [hc] at hbase
        exact Or.inr hbase

/-- C1 (amended): in the key→value map built by `parse_label_map`, the value read
    back for a key is the one of the LAST label in left-to-right order whose
    (lowercased) key part equals it: labels after it that do not redeclare the key
    leave the entry unchanged, and the map assignment is unconditional. -/
theorem parse_label_map_last_wins (pre post : List Str) (l : Str)
    (hc : hasColon l = true)
    (hpost : ∀ l' ∈ post, ¬(hasColon l' = true ∧
      toLowerS (splitFirstKey ':' l') = toLowerS (splitFirstKey ':' l))) :
    aget (parse_label_map (pre ++ l :: post)) (toLowerS (splitFirstKey ':' l)) =
      some (splitFirstVal ':' l) := by
  unfold parse_label_map
  rw [List.foldl_append, List.foldl_cons]
  rw [aget_foldl_labelStep post _ _ hpost]
  unfold labelStep
  simp [hc, aget_aset_self]

/-- C1 (counterexample): with labels `["type:A", "type:B"]` the value read back
    for key `"type"` is `"B"` — the later label, not the claimed first match. -/
theorem parse_label_map_first_wins_false :
    aget (parse_label_map [str "type:A", str "type:B"]) (str "type") = some (str "B") ∧
      str "B" ≠ str "A" := by
  constructor
  · decide
  · decide

/-- Witness for `parse_label_map_last_wins` at labels `["type:A", "type:B"]`. -/
theorem parse_label_map_last_wins_witness :
    aget (parse_label_map [str "type:A", str "type:B"])
        (toLowerS (splitFirstKey ':' (str "type:B"))) =
      some (splitFirstVal ':' (str "type:B")) :=
  parse_label_map_last_wins [str "type:A"] [] (str "type:B") (by decide)
    (fun l' hl' => by cases hl')

/-- C10: every binding of the map built by `parse_label_map` comes from a label
    containing a colon, with the key being the lowercased part before the FIRST
    colon and the value the verbatim (case-preserved) part after the first colon,
    which may itself contain further colons. -/
theorem parse_label_map_shape (labels : List Str) (k v : Str)
    (h : aget (parse_label_map labels) k = some v) :
    ∃ l, l ∈ labels ∧ hasColon l = true ∧
      toLowerS (splitFirstKey ':' l) = k ∧ splitFirstVal ':' l = v := by
  rcases aget_foldl_labelStep_some labels [] k v h with hmem | hbase
  · exact hmem
  · simp [aget] at hbase

/-- Witness for `parse_label_map_shape`: the label `"Type:Feature:X"` populates
    key `"type"` (lowercased) with the verbatim value `"Feature:X"` (case kept,
    inner colon kept: the label is split only at the first colon). -/
theorem parse_label_map_shape_witness :
    ∃ l, l ∈ [str "Type:Feature:X"] ∧ hasColon l = true ∧
      toLowerS (splitFirstKey ':' l) = str "type" ∧ splitFirstVal ':' l = str "Feature:X" :=
  parse_label_map_shape [str "Type:Feature:X"] (str "type") (str "Feature:X") (by decide)

theorem aget_asetOpt_ne (ps : Props) (K k : Str) (o : Option PropValue) (h : K ≠ k) :
    aget (asetOpt ps K o) k = aget ps k := by
  cases o with
  | some v => exact aget_aset_ne ps K k v h
  | none => rfl

theorem aget_asetOpt_self (ps : Props) (K : Str) (o : Option PropValue) :
    aget (asetOpt ps K o) K = o.or (aget ps K) := by
  cases o with
  | some v => simp [asetOpt, aget_aset_self, Option.or]
  | none => rfl

theorem aget_ite_aset_ne {c : Prop} [Decidable c] (ps : Props) (K k : Str) (v : PropValue)
    (h : K ≠ k) : aget (if c then aset ps K v else ps) k = aget ps k := by
  split
  · exact aget_aset_ne ps K k v h
  · rfl

theorem aget_ite_aset_self {c : Prop} [Decidable c] (ps : Props) (K : Str) (v : PropValue) :
    aget (if c then aset ps K v else ps) K = if c then some v else aget ps K := by
  by_cases h : c <;> simp [h, aget_aset_self]

theorem aget_aset_cases {β : Type} {m : List (Str × β)} {k' k : Str} {v' v : β}
    (h : aget (aset m k' v') k = some v) : k = k' ∨ aget m k = some v := by
  by_cases hk : k' = k
  · exact Or.inl hk.symm
  · rw [aget_aset_ne m k' k v' hk] at h
    exact Or.inr h

theorem aget_ite_aset_cases {c : Prop} [Decidable c] {ps : Props} {K k : Str}
    {v' v : PropValue} (h : aget (if c then aset ps K v' else ps) k = some v) :
    k = K ∨ aget ps k = some v := by
  split at h
  · exact aget_aset_cases h
  · exact Or.inr h

theorem aget_pair_cases {a b k : Str} {va vb v : PropValue}
    (h : aget [(a, va), (b, vb)] k = some v) : k = a ∨ k = b := by
  by_cases ha : a = k
  · exact Or.inl ha.symm
  · by_cases hb : b = k
    · exact Or.inr hb.symm
    · simp [aget, ha, hb] at h

/-- C2 (counterexample): for a non-empty value list and a field whose schema kind
    is free text (not multi-choice), `multi_select_payload` returns `None` — the
    field is omitted, not encoded as free text as the claim states. -/
theorem multi_select_payload_omits_nonempty :
    multi_select_payload [(PROP_LABELS, str "rich_text")] PROP_LABELS [some (str "a")] = none := by
  decide

/-- C2 (amended): when the schema kind for a field is none of single-choice,
    multi-choice or person-reference (or the field is absent from the schema),
    `select_payload` and `people_payload` (both variants) fall back to a
    free-text encoding, but `multi_select_payload` returns an omitted result
    (`None`) for every non-empty value list — the label information is instead
    re-attached to the Notes field by the payload builder. -/
theorem encoder_fallback_amended (schema : Schema) (pm : PeopleMap) (name value : Str)
    (login : Option Str) (values : List (Option Str))
    (h1 : aget schema name ≠ some (str "select"))
    (h2 : aget schema name ≠ some (str "multi_select"))
    (h3 : aget schema name ≠ some (str "people"))
    (hv : values ≠ []) :
    select_payload schema name value = [(name, .richTextV value)] ∧
    NotionSync.people_payload schema pm name login = [(name, .richTextV (orEmpty login))] ∧
    IssueToNotion.people_payload schema pm name login = [(name, .richTextV (orEmpty login))] ∧
    multi_select_payload schema name values = none := by
  refine ⟨?_, ?_, ?_, ?_⟩
  · simp [select_payload, select_value, h1, h2]
  · simp [NotionSync.people_payload, NotionSync.people_value, h3]
  · simp [IssueToNotion.people_payload, IssueToNotion.people_value, h3]
  · have hne : values.isEmpty = false := by
      cases values with
      | nil => exact absurd rfl hv
      | cons a l => rfl
    simp [multi_select_payload, multi_select_value, hne, h2]

/-- Witness for `encoder_fallback_amended` at a free-text field `"F"`. -/
theorem encoder_fallback_amended_witness :
    select_payload [(str "F", str "rich_text")] (str "F") (str "v") = [(str "F", .richTextV (str "v"))] ∧
    NotionSync.people_payload [(str "F", str "rich_text")] [] (str "F") (some (str "u")) =
      [(str "F", .richTextV (orEmpty (some (str "u"))))] ∧
    IssueToNotion.people_payload [(str "F", str "rich_text")] [] (str "F") (some (str "u")) =
      [(str "F", .richTextV (orEmpty (some (str "u"))))] ∧
    multi_select_payload [(str "F", str "rich_text")] (str "F") [some (str "a")] = none :=
  encoder_fallback_amended [(str "F", str "rich_text")] [] (str "F") (str "v")
    (some (str "u")) [some (str "a")] (by decide) (by decide) (by decide) (by decide)

theorem titleOf_ok (t : Option (Option Str)) (h : t ≠ some none) : ∃ s, titleOf t = .ok s := by
  rcases t with _ | (_ | s)
  · exact ⟨[], rfl⟩
  · exact absurd rfl h
  · exact ⟨s.take 200, rfl⟩

theorem parse_label_map_chk_ok (labels : List (Option Str)) (hl : ∀ l ∈ labels, l ≠ none) :
    ∀ m, ∃ r, parse_label_map_chk labels m = .ok r := by
  induction labels with
  | nil => exact fun m => ⟨m, rfl⟩
  | cons l rest ih =>
    intro m
    cases l with
    | none => exact absurd rfl (hl none (List.mem_cons_self _ _))
    | some l' => exact ih (fun x hx => hl x (List.mem_cons_of_mem _ hx)) (labelStep m l')

theorem find_sprint_label_ok (labels : List (Option Str)) (hl : ∀ l ∈ labels, l ≠ none) :
    ∃ r, NotionSync.find_sprint_label labels = .ok r := by
  induction labels with
  | nil => exact ⟨none, rfl⟩
  | cons l rest ih =>
    cases l with
    | none => exact absurd rfl (hl none (List.mem_cons_self _ _))
    | some l' =>
      have ih' := ih (fun x hx => hl x (List.mem_cons_of_mem _ hx))
      simp only [NotionSync.find_sprint_label]
      split
      · split
        · exact ih'
        · exact ⟨_, rfl⟩
      · exact ih'

theorem resolve_sprint_from_issue_ok (labels : List (Option Str))
    (ms : Option (Option (Option Str))) (hl : ∀ l ∈ labels, l ≠ none) :
    ∃ r, NotionSync.resolve_sprint_from_issue labels ms = .ok r := by
  obtain ⟨r, hr⟩ := find_sprint_label_ok labels hl
  simp only [NotionSync.resolve_sprint_from_issue, hr]
  cases r with
  | some s => exact ⟨some s, rfl⟩
  | none =>
    rcases ms with _ | (_ | (_ | t))
    · exact ⟨none, rfl⟩
    · exact ⟨none, rfl⟩
    · exact ⟨none, rfl⟩
    · simp only []
      split
      · exact ⟨none, rfl⟩
      · split
        · exact ⟨none, rfl⟩
        · exact ⟨_, rfl⟩

theorem sprint_from_labels_ok (labels : List (Option Str)) (hl : ∀ l ∈ labels, l ≠ none) :
    ∃ r, IssueToNotion.sprint_from_labels labels = .ok r := by
  induction labels with
  | nil => exact ⟨none, rfl⟩
  | cons l rest ih =>
    cases l with
    | none => exact absurd rfl (hl none (List.mem_cons_self _ _))
    | some l' =>
      have ih' := ih (fun x hx => hl x (List.mem_cons_of_mem _ hx))
      simp only [IssueToNotion.sprint_from_labels]
      split
      · exact ⟨_, rfl⟩
      · exact ih'

theorem resolve_sprint_single_ok (labels : List (Option Str))
    (ms : Option (Option (Option Str))) (hl : ∀ l ∈ labels, l ≠ none)
    (hms : ms ≠ some (some none)) :
    ∃ r, IssueToNotion.resolve_sprint labels ms = .ok r := by
  obtain ⟨r, hr⟩ := sprint_from_labels_ok labels hl
  simp only [IssueToNotion.resolve_sprint, hr]
  cases r with
  | some s => exact ⟨some s, rfl⟩
  | none =>
    rcases ms with _ | (_ | (_ | t))
    · exact ⟨none, rfl⟩
    · exact ⟨none, rfl⟩
    · exact absurd rfl hms
    · simp only []
      split
      · exact ⟨none, rfl⟩
      · exact ⟨_, rfl⟩

/-- C3 (amended): both payload builders return a payload without raising for
    every issue record whose `"title"` is not a present-but-null value and whose
    label entries all carry non-null names, the single-issue builder requiring
    additionally that the milestone's `"title"` key is not present-but-null (the
    sweep builder degrades a null milestone title safely, the single-issue one
    raises on it); all other missing/null fields (null body, missing assignee,
    missing milestone, missing timestamps, missing state, missing urls, missing
    id) degrade safely in both. -/
theorem build_properties_total_amended (schema : Schema) (pm : PeopleMap) (prm : ProjectMap)
    (issue : Issue) (repo_full : Str)
    (ht : issue.title ≠ some none) (hl : ∀ l ∈ issue.labels, l ≠ none) :
    (∃ ps, NotionSync.build_properties schema pm prm issue = .ok ps) ∧
    (issue.milestoneTitle ≠ some (some none) →
      ∃ ps, IssueToNotion.build_properties schema pm prm issue repo_full = .ok ps) := by
  obtain ⟨t, hT⟩ := titleOf_ok issue.title ht
  obtain ⟨lm, hL⟩ := parse_label_map_chk_ok issue.labels hl []
  constructor
  · obtain ⟨sv, hS⟩ := resolve_sprint_from_issue_ok issue.labels issue.milestoneTitle hl
    exact ⟨NotionSync.build_core schema pm prm issue t sv lm, by
      simp only [NotionSync.build_properties, hT, hL, hS]⟩
  · intro hms
    obtain ⟨sv, hS⟩ := resolve_sprint_single_ok issue.labels issue.milestoneTitle hl hms
    exact ⟨IssueToNotion.build_core schema pm prm issue repo_full t sv lm, by
      simp only [IssueToNotion.build_properties, hT, hL, hS]⟩

/-- C3 (counterexample): on an issue whose `"title"` key holds null BOTH
    builders raise a `TypeError` (from `issue.get("title","")[:200]`) instead of
    returning a payload; and on a milestone whose `"title"` key holds null the
    single-issue builder raises an `AttributeError`
    (from `issue["milestone"].get("title","").strip()`). -/
theorem build_properties_raises_on_null_title :
    NotionSync.build_properties [] [] [] issueNullTitle =
      .error (str "TypeError: NoneType is not subscriptable") ∧
    IssueToNotion.build_properties [] [] [] issueNullTitle (str "me/proj") =
      .error (str "TypeError: NoneType is not subscriptable") ∧
    IssueToNotion.build_properties [] [] [] issueNullMilestoneTitle (str "me/proj") =
      .error (str "AttributeError: NoneType has no attribute strip") := by
  refine ⟨by decide, by decide, by decide⟩

/-- Witness for `build_properties_total_amended` on a plain issue, for both
    builders. -/
theorem build_properties_total_amended_witness :
    (∃ ps, NotionSync.build_properties [] [] [] issueC3w = .ok ps) ∧
    (∃ ps, IssueToNotion.build_properties [] [] [] issueC3w (str "me/proj") = .ok ps) :=
  ⟨(build_properties_total_amended [] [] [] issueC3w (str "me/proj") (by decide) (by decide)).1,
   (build_properties_total_amended [] [] [] issueC3w (str "me/proj") (by decide) (by decide)).2
     (by decide)⟩

theorem find_sprint_label_map_some (labels : List Str) :
    NotionSync.find_sprint_label (labels.map some) =
      .ok ((labels.find? (fun l => startsWithS (toLowerS l) (str "sprint:") &&
          !(trimS (splitFirstVal ':' l)).isEmpty)).map
        (fun l => str "Sprint " ++ trimS (splitFirstVal ':' l))) := by
  induction labels with
  | nil => rfl
  | cons l rest ih =>
    simp only [List.map_cons, NotionSync.find_sprint_label, List.find?]
    by_cases h1 : startsWithS (toLowerS l) (str "sprint:") = true
    · by_cases h2 : (trimS (splitFirstVal ':' l)).isEmpty = true
      · simp [h1, h2, ih]
      · simp [h1, h2]
    · simp [h1, ih]

theorem sprint_from_labels_map_some (labels : List Str) :
    IssueToNotion.sprint_from_labels (labels.map some) =
      .ok ((labels.find? (fun l => startsWithS (toLowerS l) (str "sprint:"))).map
        (fun l => str "Sprint " ++ trimS (splitFirstVal ':' l))) := by
  induction labels with
  | nil => rfl
  | cons l rest ih =>
    simp only [List.map_cons, IssueToNotion.sprint_from_labels, List.find?]
    by_cases h1 : startsWithS (toLowerS l) (str "sprint:") = true
    · simp [h1]
    · simp [h1, ih]

/-- C5 (amended): the Sprint value is derived with this priority, which differs
    slightly between the two variants.  Sweep variant: (a) the FIRST label whose
    lowercased form starts with `"sprint:"` AND whose after-first-colon part
    strips to non-empty yields `"Sprint "` plus the STRIPPED value, regardless
    of any attached milestone — sprint labels with a whitespace-only value are
    skipped.  Single-issue variant: the label loop stops at the FIRST
    `"sprint:"`-prefixed label unconditionally, yielding `"Sprint "` plus the
    stripped value even when that value is empty.  Both variants: else (b) a
    milestone title that strips to non-empty yields the STRIPPED title (not the
    verbatim title); else (c) the Sprint value is omitted (for the single-issue
    variant this holds when the milestone title is not present-but-null, on
    which it raises instead). -/
theorem resolve_sprint_amended (labels : List Str) (milestoneTitle : Option (Option (Option Str))) :
    NotionSync.resolve_sprint_from_issue (labels.map some) milestoneTitle =
      .ok (sprint_rule_amended labels milestoneTitle) ∧
    (milestoneTitle ≠ some (some none) →
      IssueToNotion.resolve_sprint (labels.map some) milestoneTitle =
        .ok (sprint_rule_single_amended labels milestoneTitle)) := by
  constructor
  · simp only [NotionSync.resolve_sprint_from_issue, find_sprint_label_map_some, sprint_rule_amended]
    cases hf : labels.find? (fun l => startsWithS (toLowerS l) (str "sprint:") &&
        !(trimS (splitFirstVal ':' l)).isEmpty) with
    | some l => rfl
    | none =>
      simp only [Option.map_none']
      rcases milestoneTitle with _ | (_ | (_ | t))
      · rfl
      · rfl
      · rfl
      · cases t with
        | nil => rfl
        | cons c cs =>
          by_cases hE : (trimS (c :: cs)).isEmpty = true
          · simp [hE]
          · simp [hE]
  · intro hms
    simp only [IssueToNotion.resolve_sprint, sprint_from_labels_map_some, sprint_rule_single_amended]
    cases hf : labels.find? (fun l => startsWithS (toLowerS l) (str "sprint:")) with
    | some l => rfl
    | none =>
      simp only [Option.map_none']
      rcases milestoneTitle with _ | (_ | (_ | t))
      · rfl
      · rfl
      · exact absurd rfl hms
      · by_cases hE : (trimS t).isEmpty = true
        · simp [hE]
        · simp [hE]

/-- Witness for `resolve_sprint_amended` at the label list `["sprint: 3"]` and a
    milestone titled `" M "`: both variants yield `"Sprint 3"` per their rules. -/
theorem resolve_sprint_amended_witness :
    NotionSync.resolve_sprint_from_issue ([str "sprint: 3"].map some)
        (some (some (some (str " M ")))) =
      .ok (sprint_rule_amended [str "sprint: 3"] (some (some (some (str " M "))))) ∧
    IssueToNotion.resolve_sprint ([str "sprint: 3"].map some)
        (some (some (some (str " M ")))) =
      .ok (sprint_rule_single_amended [str "sprint: 3"] (some (some (some (str " M "))))) :=
  ⟨(resolve_sprint_amended [str "sprint: 3"] (some (some (some (str " M "))))).1,
   (resolve_sprint_amended [str "sprint: 3"] (some (some (some (str " M "))))).2 (by decide)⟩

/-- C5 (counterexample): with no sprint label and a milestone titled
    `" Sprint 9 "` the Sprint value is the STRIPPED title `"Sprint 9"`, not the
    verbatim milestone title as the claim states. -/
theorem resolve_sprint_strips_milestone_title :
    NotionSync.resolve_sprint_from_issue [] (some (some (some (str " Sprint 9 ")))) =
      .ok (some (str "Sprint 9")) ∧ str "Sprint 9" ≠ str " Sprint 9 " := by
  refine ⟨by decide, by decide⟩

theorem update_payload_status (schema : Schema) (np : Props) :
    aget (update_payload schema np) PROP_STATUS =
      if statusSelNameOpt np = some (str "Done") then some (.selectV (str "Done")) else none := by
  simp only [update_payload]
  rw [aget_ite_aset_self,
      aget_ite_aset_ne _ PROP_LABELS PROP_STATUS _ (by decide),
      aget_ite_aset_ne _ PROP_SPRINT PROP_STATUS _ (by decide),
      aget_ite_aset_ne _ PROP_PRIORITY PROP_STATUS _ (by decide),
      aget_ite_aset_ne _ PROP_TYPE PROP_STATUS _ (by decide),
      aget_ite_aset_ne _ PROP_PROJECT PROP_STATUS _ (by decide)]
  simp [aget, show PROP_TITLE ≠ PROP_STATUS by decide, show PROP_BODY ≠ PROP_STATUS by decide]

theorem update_payload_other (schema : Schema) (np : Props) (k : Str)
    (h1 : PROP_TITLE ≠ k) (h2 : PROP_BODY ≠ k) (h3 : PROP_PROJECT ≠ k) (h4 : PROP_TYPE ≠ k)
    (h5 : PROP_PRIORITY ≠ k) (h6 : PROP_SPRINT ≠ k) (h7 : PROP_LABELS ≠ k) (h8 : PROP_STATUS ≠ k) :
    aget (update_payload schema np) k = none := by
  simp only [update_payload]
  rw [aget_ite_aset_ne _ PROP_STATUS k _ h8,
      aget_ite_aset_ne _ PROP_LABELS k _ h7,
      aget_ite_aset_ne _ PROP_SPRINT k _ h6,
      aget_ite_aset_ne _ PROP_PRIORITY k _ h5,
      aget_ite_aset_ne _ PROP_TYPE k _ h4,
      aget_ite_aset_ne _ PROP_PROJECT k _ h3]
  simp [aget, h1, h2]

theorem update_payload_project (schema : Schema) (np : Props) :
    aget (update_payload schema np) PROP_PROJECT =
      if (aget np PROP_PROJECT).isSome ∧ aget schema PROP_PROJECT = some (str "select")
      then some ((aget np PROP_PROJECT).getD (.selectV [])) else none := by
  simp only [update_payload]
  rw [aget_ite_aset_ne _ PROP_STATUS PROP_PROJECT _ (by decide),
      aget_ite_aset_ne _ PROP_LABELS PROP_PROJECT _ (by decide),
      aget_ite_aset_ne _ PROP_SPRINT PROP_PROJECT _ (by decide),
      aget_ite_aset_ne _ PROP_PRIORITY PROP_PROJECT _ (by decide),
      aget_ite_aset_ne _ PROP_TYPE PROP_PROJECT _ (by decide),
      aget_ite_aset_self]
  simp [aget, show PROP_TITLE ≠ PROP_PROJECT by decide, show PROP_BODY ≠ PROP_PROJECT by decide]

theorem update_payload_type (schema : Schema) (np : Props) :
    aget (update_payload schema np) PROP_TYPE =
      if (aget np PROP_TYPE).isSome ∧ aget schema PROP_TYPE = some (str "select")
      then some ((aget np PROP_TYPE).getD (.selectV [])) else none := by
  simp only [update_payload]
  rw [aget_ite_aset_ne _ PROP_STATUS PROP_TYPE _ (by decide),
      aget_ite_aset_ne _ PROP_LABELS PROP_TYPE _ (by decide),
      aget_ite_aset_ne _ PROP_SPRINT PROP_TYPE _ (by decide),
      aget_ite_aset_ne _ PROP_PRIORITY PROP_TYPE _ (by decide),
      aget_ite_aset_self,
      aget_ite_aset_ne _ PROP_PROJECT PROP_TYPE _ (by decide)]
  simp [aget, show PROP_TITLE ≠ PROP_TYPE by decide, show PROP_BODY ≠ PROP_TYPE by decide]

theorem update_payload_priority (schema : Schema) (np : Props) :
    aget (update_payload schema np) PROP_PRIORITY =
      if (aget np PROP_PRIORITY).isSome ∧ aget schema PROP_PRIORITY = some (str "select")
      then some ((aget np PROP_PRIORITY).getD (.selectV [])) else none := by
  simp only [update_payload]
  rw [aget_ite_aset_ne _ PROP_STATUS PROP_PRIORITY _ (by decide),
      aget_ite_aset_ne _ PROP_LABELS PROP_PRIORITY _ (by decide),
      aget_ite_aset_ne _ PROP_SPRINT PROP_PRIORITY _ (by decide),
      aget_ite_aset_self,
      aget_ite_aset_ne _ PROP_TYPE PROP_PRIORITY _ (by decide),
      aget_ite_aset_ne _ PROP_PROJECT PROP_PRIORITY _ (by decide)]
  simp [aget, show PROP_TITLE ≠ PROP_PRIORITY by decide, show PROP_BODY ≠ PROP_PRIORITY by decide]

theorem update_payload_sprint (schema : Schema) (np : Props) :
    aget (update_payload schema np) PROP_SPRINT =
      if (aget np PROP_SPRINT).isSome ∧ aget schema PROP_SPRINT = some (str "select")
      then some ((aget np PROP_SPRINT).getD (.selectV [])) else none := by
  simp only [update_payload]
  rw [aget_ite_aset_ne _ PROP_STATUS PROP_SPRINT _ (by decide),
      aget_ite_aset_ne _ PROP_LABELS PROP_SPRINT _ (by decide),
      aget_ite_aset_self,
      aget_ite_aset_ne _ PROP_PRIORITY PROP_SPRINT _ (by decide),
      aget_ite_aset_ne _ PROP_TYPE PROP_SPRINT _ (by decide),
      aget_ite_aset_ne _ PROP_PROJECT PROP_SPRINT _ (by decide)]
  simp [aget, show PROP_TITLE ≠ PROP_SPRINT by decide, show PROP_BODY ≠ PROP_SPRINT by decide]

theorem update_payload_labels (schema : Schema) (np : Props) :
    aget (update_payload schema np) PROP_LABELS =
      if aget schema PROP_LABELS = some (str "multi_select") ∧ (aget np PROP_LABELS).isSome
      then some ((aget np PROP_LABELS).getD (.multiSelectV [])) else none := by
  simp only [update_payload]
  rw [aget_ite_aset_ne _ PROP_STATUS PROP_LABELS _ (by decide),
      aget_ite_aset_self,
      aget_ite_aset_ne _ PROP_SPRINT PROP_LABELS _ (by decide),
      aget_ite_aset_ne _ PROP_PRIORITY PROP_LABELS _ (by decide),
      aget_ite_aset_ne _ PROP_TYPE PROP_LABELS _ (by decide),
      aget_ite_aset_ne _ PROP_PROJECT PROP_LABELS _ (by decide)]
  simp [aget, show PROP_TITLE ≠ PROP_LABELS by decide, show PROP_BODY ≠ PROP_LABELS by decide]

theorem update_payload_keys (schema : Schema) (np : Props) (k : Str) (v : PropValue)
    (h : aget (update_payload schema np) k = some v) :
    k = PROP_TITLE ∨ k = PROP_BODY ∨ k = PROP_PROJECT ∨ k = PROP_TYPE ∨ k = PROP_PRIORITY ∨
      k = PROP_SPRINT ∨ k = PROP_LABELS ∨ k = PROP_STATUS := by
  simp only [update_payload] at h
  rcases aget_ite_aset_cases h with rfl | h
  · tauto
  rcases aget_ite_aset_cases h with rfl | h
  · tauto
  rcases aget_ite_aset_cases h with rfl | h
  · tauto
  rcases aget_ite_aset_cases h with rfl | h
  · tauto
  rcases aget_ite_aset_cases h with rfl | h
  · tauto
  rcases aget_ite_aset_cases h with rfl | h
  · tauto
  rcases aget_pair_cases h with rfl | rfl <;> tauto

/-- C4: Status can never be downgraded by a sync of an existing record.  When
    every other compared field is equal, the diff returns a difference exactly
    when the new status is `"Done"` and the existing one is not; and for every
    built payload, the update payload carries a Status entry only when the new
    status is `"Done"`, and then with the fixed value `"Done"` — so an update
    can never move Status away from `"Done"`. -/
theorem status_monotonic (schema : Schema) (e n : Props)
    (hT : trimS (titleContent e PROP_TITLE) = trimS (titleContent n PROP_TITLE))
    (hP : selName e PROP_PROJECT = selName n PROP_PROJECT)
    (hTy : selName e PROP_TYPE = selName n PROP_TYPE)
    (hPr : selName e PROP_PRIORITY = selName n PROP_PRIORITY)
    (hS : selName e PROP_SPRINT = selName n PROP_SPRINT)
    (hL : sameSet (msNames e PROP_LABELS) (msNames n PROP_LABELS) = true)
    (hB : trimS (richContent e PROP_BODY) = trimS (richContent n PROP_BODY)) :
    NotionSync.properties_differ schema e n =
      ((selName n PROP_STATUS == str "Done") && (selName e PROP_STATUS != str "Done")) ∧
    ∀ np : Props, aget (update_payload schema np) PROP_STATUS ≠ none →
      statusSelNameOpt np = some (str "Done") ∧
      aget (update_payload schema np) PROP_STATUS = some (.selectV (str "Done")) := by
  constructor
  · simp [NotionSync.properties_differ, hT, hP, hTy, hPr, hS, hL, hB]
  · intro np hne
    rw [update_payload_status] at hne
    rw [update_payload_status]
    by_cases hc : statusSelNameOpt np = some (str "Done")
    · exact ⟨hc, by simp [hc]⟩
    · simp [hc] at hne

/-- Witness for `status_monotonic` at empty records and a Done-status payload. -/
theorem status_monotonic_witness :
    NotionSync.properties_differ [] [] [] =
      ((selName [] PROP_STATUS == str "Done") && (selName [] PROP_STATUS != str "Done")) ∧
    (statusSelNameOpt [(PROP_STATUS, PropValue.selectV (str "Done"))] = some (str "Done") ∧
     aget (update_payload [] [(PROP_STATUS, PropValue.selectV (str "Done"))]) PROP_STATUS =
       some (.selectV (str "Done"))) :=
  ⟨(status_monotonic [] [] [] rfl rfl rfl rfl rfl (by decide) rfl).1,
   (status_monotonic [] [] [] rfl rfl rfl rfl rfl (by decide) rfl).2
     [(PROP_STATUS, PropValue.selectV (str "Done"))] (by decide)⟩

/-- C6: the update payload is a restricted subset: its keys are at most Title,
    Notes, Project/Type/Priority/Sprint (each present only when the schema kind
    is single-choice), Labels (only when multi-choice) and Status (only when the
    new status is `"Done"`); the Assignee, created/updated timestamp, url,
    external-id and repo-name fields are never included. -/
theorem update_payload_restricted (schema : Schema) (np : Props) :
    (∀ k v, aget (update_payload schema np) k = some v →
      k = PROP_TITLE ∨ k = PROP_BODY ∨ k = PROP_PROJECT ∨ k = PROP_TYPE ∨ k = PROP_PRIORITY ∨
        k = PROP_SPRINT ∨ k = PROP_LABELS ∨ k = PROP_STATUS) ∧
    aget (update_payload schema np) PROP_ASSIGNEE = none ∧
    aget (update_payload schema np) PROP_CREATED = none ∧
    aget (update_payload schema np) PROP_UPDATED = none ∧
    aget (update_payload schema np) PROP_ISSUE_URL = none ∧
    aget (update_payload schema np) PROP_GH_ID = none ∧
    aget (update_payload schema np) PROP_REPO = none ∧
    ((aget (update_payload schema np) PROP_PROJECT).isSome →
      aget schema PROP_PROJECT = some (str "select")) ∧
    ((aget (update_payload schema np) PROP_TYPE).isSome →
      aget schema PROP_TYPE = some (str "select")) ∧
    ((aget (update_payload schema np) PROP_PRIORITY).isSome →
      aget schema PROP_PRIORITY = some (str "select")) ∧
    ((aget (update_payload schema np) PROP_SPRINT).isSome →
      aget schema PROP_SPRINT = some (str "select")) ∧
    ((aget (update_payload schema np) PROP_LABELS).isSome →
      aget schema PROP_LABELS = some (str "multi_select")) ∧
    ((aget (update_payload schema np) PROP_STATUS).isSome →
      statusSelNameOpt np = some (str "Done")) := by
  refine ⟨update_payload_keys schema np, ?_, ?_, ?_, ?_, ?_, ?_, ?_, ?_, ?_, ?_, ?_, ?_⟩
  · exact update_payload_other schema np PROP_ASSIGNEE (by decide) (by decide) (by decide)
      (by decide) (by decide) (by decide) (by decide) (by decide)
  · exact update_payload_other schema np PROP_CREATED (by decide) (by decide) (by decide)
      (by decide) (by decide) (by decide) (by decide) (by decide)
  · exact update_payload_other schema np PROP_UPDATED (by decide) (by decide) (by decide)
      (by decide) (by decide) (by decide) (by decide) (by decide)
  · exact update_payload_other schema np PROP_ISSUE_URL (by decide) (by decide) (by decide)
      (by decide) (by decide) (by decide) (by decide) (by decide)
  · exact update_payload_other schema np PROP_GH_ID (by decide) (by decide) (by decide)
      (by decide) (by decide) (by decide) (by decide) (by decide)
  · exact update_payload_other schema np PROP_REPO (by decide) (by decide) (by decide)
      (by decide) (by decide) (by decide) (by decide) (by decide)
  · intro h
    rw [update_payload_project] at h
    by_cases hc : (aget np PROP_PROJECT).isSome = true ∧ aget schema PROP_PROJECT = some (str "select")
    · exact hc.2
    · simp [hc] at h
  · intro h
    rw [update_payload_type] at h
    by_cases hc : (aget np PROP_TYPE).isSome = true ∧ aget schema PROP_TYPE = some (str "select")
    · exact hc.2
    · simp [hc] at h
  · intro h
    rw [update_payload_priority] at h
    by_cases hc : (aget np PROP_PRIORITY).isSome = true ∧ aget schema PROP_PRIORITY = some (str "select")
    · exact hc.2
    · simp [hc] at h
  · intro h
    rw [update_payload_sprint] at h
    by_cases hc : (aget np PROP_SPRINT).isSome = true ∧ aget schema PROP_SPRINT = some (str "select")
    · exact hc.2
    · simp [hc] at h
  · intro h
    rw [update_payload_labels] at h
    by_cases hc : aget schema PROP_LABELS = some (str "multi_select") ∧ (aget np PROP_LABELS).isSome = true
    · exact hc.1
    · simp [hc] at h
  · intro h
    rw [update_payload_status] at h
    by_cases hc : statusSelNameOpt np = some (str "Done")
    · exact hc
    · simp [hc] at h

/-- Witness for `update_payload_restricted`: the Title key of a minimal update
    payload is among the allowed keys. -/
theorem update_payload_restricted_witness :
    PROP_TITLE = PROP_TITLE ∨ PROP_TITLE = PROP_BODY ∨ PROP_TITLE = PROP_PROJECT ∨
      PROP_TITLE = PROP_TYPE ∨ PROP_TITLE = PROP_PRIORITY ∨ PROP_TITLE = PROP_SPRINT ∨
      PROP_TITLE = PROP_LABELS ∨ PROP_TITLE = PROP_STATUS :=
  (update_payload_restricted [] []).1 PROP_TITLE (.titleV []) (by decide)

theorem build_properties_ok_inv (schema : Schema) (pm : PeopleMap) (prm : ProjectMap)
    (issue : Issue) (ps : Props)
    (h : NotionSync.build_properties schema pm prm issue = .ok ps) :
    ∃ t sv lm, titleOf issue.title = .ok t ∧
      parse_label_map_chk issue.labels [] = .ok lm ∧
      NotionSync.resolve_sprint_from_issue issue.labels issue.milestoneTitle = .ok sv ∧
      ps = NotionSync.build_core schema pm prm issue t sv lm := by
  unfold NotionSync.build_properties at h
  cases hT : titleOf issue.title with
  | error e => rw [hT] at h; simp at h
  | ok t =>
    rw [hT] at h
    cases hL : parse_label_map_chk issue.labels [] with
    | error e => rw [hL] at h; simp at h
    | ok lm =>
      rw [hL] at h
      cases hS : NotionSync.resolve_sprint_from_issue issue.labels issue.milestoneTitle with
      | error e => rw [hS] at h; simp at h
      | ok sv =>
        rw [hS] at h
        simp at h
        exact ⟨t, sv, lm, rfl, rfl, rfl, h.symm⟩

theorem build_core_created (schema : Schema) (pm : PeopleMap) (prm : ProjectMap)
    (issue : Issue) (t : Str) (sv : Option Str) (lm : List (Str × Str)) :
    aget (NotionSync.build_core schema pm prm issue t sv lm) PROP_CREATED =
      dateValueIf issue.created_at := by
  simp only [NotionSync.build_core]
  rw [aget_ite_aset_ne _ PROP_BODY PROP_CREATED _ (by decide),
      aget_ite_aset_ne _ PROP_BODY PROP_CREATED _ (by decide),
      aget_asetOpt_ne _ PROP_UPDATED PROP_CREATED _ (by decide),
      aget_asetOpt_self,
      aget_aset_ne _ PROP_BODY PROP_CREATED _ (by decide),
      aget_aset_ne _ PROP_ASSIGNEE PROP_CREATED _ (by decide),
      aget_asetOpt_ne _ PROP_SPRINT PROP_CREATED _ (by decide),
      aget_asetOpt_ne _ PROP_PRIORITY PROP_CREATED _ (by decide),
      aget_asetOpt_ne _ PROP_TYPE PROP_CREATED _ (by decide),
      aget_asetOpt_ne _ PROP_LABELS PROP_CREATED _ (by decide),
      aget_aset_ne _ PROP_STATUS PROP_CREATED _ (by decide),
      aget_aset_ne _ PROP_ISSUE_URL PROP_CREATED _ (by decide),
      aget_aset_ne _ PROP_PROJECT PROP_CREATED _ (by decide),
      aget_aset_ne _ PROP_REPO PROP_CREATED _ (by decide),
      aget_aset_ne _ PROP_GH_ID PROP_CREATED _ (by decide)]
  simp [aget, show PROP_TITLE ≠ PROP_CREATED by decide]

theorem build_core_updated (schema : Schema) (pm : PeopleMap) (prm : ProjectMap)
    (issue : Issue) (t : Str) (sv : Option Str) (lm : List (Str × Str)) :
    aget (NotionSync.build_core schema pm prm issue t sv lm) PROP_UPDATED =
      dateValueIf issue.updated_at := by
  simp only [NotionSync.build_core]
  rw [aget_ite_aset_ne _ PROP_BODY PROP_UPDATED _ (by decide),
      aget_ite_aset_ne _ PROP_BODY PROP_UPDATED _ (by decide),
      aget_asetOpt_self,
      aget_asetOpt_ne _ PROP_CREATED PROP_UPDATED _ (by decide),
      aget_aset_ne _ PROP_BODY PROP_UPDATED _ (by decide),
      aget_aset_ne _ PROP_ASSIGNEE PROP_UPDATED _ (by decide),
      aget_asetOpt_ne _ PROP_SPRINT PROP_UPDATED _ (by decide),
      aget_asetOpt_ne _ PROP_PRIORITY PROP_UPDATED _ (by decide),
      aget_asetOpt_ne _ PROP_TYPE PROP_UPDATED _ (by decide),
      aget_asetOpt_ne _ PROP_LABELS PROP_UPDATED _ (by decide),
      aget_aset_ne _ PROP_STATUS PROP_UPDATED _ (by decide),
      aget_aset_ne _ PROP_ISSUE_URL PROP_UPDATED _ (by decide),
      aget_aset_ne _ PROP_PROJECT PROP_UPDATED _ (by decide),
      aget_aset_ne _ PROP_REPO PROP_UPDATED _ (by decide),
      aget_aset_ne _ PROP_GH_ID PROP_UPDATED _ (by decide)]
  simp [aget, show PROP_TITLE ≠ PROP_UPDATED by decide]

theorem build_core_url (schema : Schema) (pm : PeopleMap) (prm : ProjectMap)
    (issue : Issue) (t : Str) (sv : Option Str) (lm : List (Str × Str)) :
    aget (NotionSync.build_core schema pm prm issue t sv lm) PROP_ISSUE_URL =
      some (.urlV issue.html_url) := by
  simp only [NotionSync.build_core]
  rw [aget_ite_aset_ne _ PROP_BODY PROP_ISSUE_URL _ (by decide),
      aget_ite_aset_ne _ PROP_BODY PROP_ISSUE_URL _ (by decide),
      aget_asetOpt_ne _ PROP_UPDATED PROP_ISSUE_URL _ (by decide),
      aget_asetOpt_ne _ PROP_CREATED PROP_ISSUE_URL _ (by decide),
      aget_aset_ne _ PROP_BODY PROP_ISSUE_URL _ (by decide),
      aget_aset_ne _ PROP_ASSIGNEE PROP_ISSUE_URL _ (by decide),
      aget_asetOpt_ne _ PROP_SPRINT PROP_ISSUE_URL _ (by decide),
      aget_asetOpt_ne _ PROP_PRIORITY PROP_ISSUE_URL _ (by decide),
      aget_asetOpt_ne _ PROP_TYPE PROP_ISSUE_URL _ (by decide),
      aget_asetOpt_ne _ PROP_LABELS PROP_ISSUE_URL _ (by decide),
      aget_aset_ne _ PROP_STATUS PROP_ISSUE_URL _ (by decide),
      aget_aset_self]

theorem build_core_ghid (schema : Schema) (pm : PeopleMap) (prm : ProjectMap)
    (issue : Issue) (t : Str) (sv : Option Str) (lm : List (Str × Str)) :
    aget (NotionSync.build_core schema pm prm issue t sv lm) PROP_GH_ID =
      some (.numberV issue.id) := by
  simp only [NotionSync.build_core]
  rw [aget_ite_aset_ne _ PROP_BODY PROP_GH_ID _ (by decide),
      aget_ite_aset_ne _ PROP_BODY PROP_GH_ID _ (by decide),
      aget_asetOpt_ne _ PROP_UPDATED PROP_GH_ID _ (by decide),
      aget_asetOpt_ne _ PROP_CREATED PROP_GH_ID _ (by decide),
      aget_aset_ne _ PROP_BODY PROP_GH_ID _ (by decide),
      aget_aset_ne _ PROP_ASSIGNEE PROP_GH_ID _ (by decide),
      aget_asetOpt_ne _ PROP_SPRINT PROP_GH_ID _ (by decide),
      aget_asetOpt_ne _ PROP_PRIORITY PROP_GH_ID _ (by decide),
      aget_asetOpt_ne _ PROP_TYPE PROP_GH_ID _ (by decide),
      aget_asetOpt_ne _ PROP_LABELS PROP_GH_ID _ (by decide),
      aget_aset_ne _ PROP_STATUS PROP_GH_ID _ (by decide),
      aget_aset_ne _ PROP_ISSUE_URL PROP_GH_ID _ (by decide),
      aget_aset_ne _ PROP_PROJECT PROP_GH_ID _ (by decide),
      aget_aset_ne _ PROP_REPO PROP_GH_ID _ (by decide),
      aget_aset_self]

/-- C7 (amended): the built payload carries a created/updated timestamp entry
    exactly when the source supplies a truthy value (never fabricated), but the
    external-id and url entries are ALWAYS emitted, carrying the source value
    verbatim — which is a null stand-in when the source record lacks the field. -/
theorem build_never_fabricates_amended (schema : Schema) (pm : PeopleMap) (prm : ProjectMap)
    (issue : Issue) (ps : Props)
    (h : NotionSync.build_properties schema pm prm issue = .ok ps) :
    aget ps PROP_CREATED = dateValueIf issue.created_at ∧
    aget ps PROP_UPDATED = dateValueIf issue.updated_at ∧
    aget ps PROP_ISSUE_URL = some (.urlV issue.html_url) ∧
    aget ps PROP_GH_ID = some (.numberV issue.id) := by
  obtain ⟨t, sv, lm, _, _, _, rfl⟩ := build_properties_ok_inv schema pm prm issue ps h
  exact ⟨build_core_created schema pm prm issue t sv lm,
         build_core_updated schema pm prm issue t sv lm,
         build_core_url schema pm prm issue t sv lm,
         build_core_ghid schema pm prm issue t sv lm⟩

/-- C7 (counterexample): for an issue with no id and no url at the source, the
    payload nevertheless contains the external-id and url keys with null
    stand-ins, contradicting the claim that those keys appear only when the
    source supplies them. -/
theorem build_emits_null_url_and_id :
    aget (payloadOf (NotionSync.build_properties [] [] [] issueC7x)) PROP_ISSUE_URL =
      some (.urlV none) ∧
    aget (payloadOf (NotionSync.build_properties [] [] [] issueC7x)) PROP_GH_ID =
      some (.numberV none) := by
  refine ⟨by decide, by decide⟩

/-- Witness for `build_never_fabricates_amended` on an issue with id, url and a
    created timestamp. -/
theorem build_never_fabricates_amended_witness :
    aget (payloadOf (NotionSync.build_properties [] [] [] issueC7w)) PROP_CREATED =
      dateValueIf issueC7w.created_at ∧
    aget (payloadOf (NotionSync.build_properties [] [] [] issueC7w)) PROP_UPDATED =
      dateValueIf issueC7w.updated_at ∧
    aget (payloadOf (NotionSync.build_properties [] [] [] issueC7w)) PROP_ISSUE_URL =
      some (.urlV issueC7w.html_url) ∧
    aget (payloadOf (NotionSync.build_properties [] [] [] issueC7w)) PROP_GH_ID =
      some (.numberV issueC7w.id) :=
  build_never_fabricates_amended [] [] [] issueC7w
    (payloadOf (NotionSync.build_properties [] [] [] issueC7w)) (by decide)

theorem build_core_labels_empty (schema : Schema) (pm : PeopleMap) (prm : ProjectMap)
    (issue : Issue) (t : Str) (sv : Option Str) (lm : List (Str × Str))
    (hempty : issue.labels = [])
    (hkind : aget schema PROP_LABELS = some (str "multi_select")) :
    aget (NotionSync.build_core schema pm prm issue t sv lm) PROP_LABELS =
      some (.multiSelectV []) := by
  simp only [NotionSync.build_core]
  rw [aget_ite_aset_ne _ PROP_BODY PROP_LABELS _ (by decide),
      aget_ite_aset_ne _ PROP_BODY PROP_LABELS _ (by decide),
      aget_asetOpt_ne _ PROP_UPDATED PROP_LABELS _ (by decide),
      aget_asetOpt_ne _ PROP_CREATED PROP_LABELS _ (by decide),
      aget_aset_ne _ PROP_BODY PROP_LABELS _ (by decide),
      aget_aset_ne _ PROP_ASSIGNEE PROP_LABELS _ (by decide),
      aget_asetOpt_ne _ PROP_SPRINT PROP_LABELS _ (by decide),
      aget_asetOpt_ne _ PROP_PRIORITY PROP_LABELS _ (by decide),
      aget_asetOpt_ne _ PROP_TYPE PROP_LABELS _ (by decide),
      aget_asetOpt_self, hempty]
  simp [multi_select_value, hkind, Option.or]

/-- C8: for an issue whose label list is empty, when the Labels schema kind is
    multi-choice, the built payload contains an explicit empty multi-choice
    value (a clear-all-values encoding) rather than omitting the Labels field. -/
theorem empty_labels_explicit_clear (schema : Schema) (pm : PeopleMap) (prm : ProjectMap)
    (issue : Issue) (ps : Props)
    (h : NotionSync.build_properties schema pm prm issue = .ok ps)
    (hempty : issue.labels = [])
    (hkind : aget schema PROP_LABELS = some (str "multi_select")) :
    aget ps PROP_LABELS = some (.multiSelectV []) := by
  obtain ⟨t, sv, lm, _, _, _, rfl⟩ := build_properties_ok_inv schema pm prm issue ps h
  exact build_core_labels_empty schema pm prm issue t sv lm hempty hkind

/-- Witness for `empty_labels_explicit_clear` on a label-less issue with a
    multi-choice Labels field. -/
theorem empty_labels_explicit_clear_witness :
    aget (payloadOf (NotionSync.build_properties [(PROP_LABELS, str "multi_select")] [] [] issueC8w))
      PROP_LABELS = some (.multiSelectV []) :=
  empty_labels_explicit_clear [(PROP_LABELS, str "multi_select")] [] [] issueC8w
    (payloadOf (NotionSync.build_properties [(PROP_LABELS, str "multi_select")] [] [] issueC8w))
    (by decide) (by decide) (by decide)

theorem differ_variants_eq (schema : Schema) (e n : Props) :
    IssueToNotion.properties_differ schema e n = NotionSync.properties_differ schema e n := by
  unfold IssueToNotion.properties_differ NotionSync.properties_differ
  generalize (trimS (titleContent e PROP_TITLE) != trimS (titleContent n PROP_TITLE)) = bT
  generalize ((aget schema PROP_PROJECT == some (str "select")) &&
    (selName e PROP_PROJECT != selName n PROP_PROJECT)) = bP
  generalize ((aget schema PROP_TYPE == some (str "select")) &&
    (selName e PROP_TYPE != selName n PROP_TYPE)) = bY
  generalize ((aget schema PROP_PRIORITY == some (str "select")) &&
    (selName e PROP_PRIORITY != selName n PROP_PRIORITY)) = bR
  generalize ((aget schema PROP_SPRINT == some (str "select")) &&
    (selName e PROP_SPRINT != selName n PROP_SPRINT)) = bS
  generalize ((aget schema PROP_LABELS == some (str "multi_select")) &&
    !sameSet (msNames e PROP_LABELS) (msNames n PROP_LABELS)) = bL
  generalize (trimS (richContent e PROP_BODY) != trimS (richContent n PROP_BODY)) = bB
  generalize ((selName n PROP_STATUS == str "Done") && (selName e PROP_STATUS != str "Done")) = bD
  revert bT bP bY bR bS bL bB bD
  decide

theorem people_value_eq (schema : Schema) (pm : PeopleMap)
    (hpm : ∀ k v, (k, v) ∈ pm → ∃ s, v = some s ∧ s.isEmpty = false)
    (name : Str) (login : Option Str) :
    NotionSync.people_value schema pm name login =
      IssueToNotion.people_value schema pm name login := by
  unfold NotionSync.people_value IssueToNotion.people_value
  by_cases hk : aget schema name = some (str "people")
  · by_cases hl : strTruthy login = true
    · cases hlk : aget pm (orEmpty login) with
      | none => simp [hk, hl, hlk, strTruthy, Option.join]
      | some v =>
        obtain ⟨s, rfl, hs⟩ := hpm _ _ (aget_mem _ _ _ hlk)
        simp [hk, hl, hlk, strTruthy, hs, Option.join]
    · simp [hk, hl]
  · simp [hk]

theorem people_lookup_join_none_iff (pm : PeopleMap)
    (hpm : ∀ k v, (k, v) ∈ pm → ∃ s, v = some s ∧ s.isEmpty = false) (k : Str) :
    ((aget pm k).join = none) ↔ (aget pm k = none) := by
  cases hlk : aget pm k with
  | none => simp [Option.join]
  | some v =>
    obtain ⟨s, rfl, _⟩ := hpm _ _ (aget_mem _ _ _ hlk)
    simp [Option.join]

theorem sprint_labels_eq (labels : List (Option Str))
    (hs : ∀ l ∈ labels, ∀ s, l = some s → startsWithS (toLowerS s) (str "sprint:") = true →
      (trimS (splitFirstVal ':' s)).isEmpty = false) :
    NotionSync.find_sprint_label labels = IssueToNotion.sprint_from_labels labels := by
  induction labels with
  | nil => rfl
  | cons l rest ih =>
    cases l with
    | none => rfl
    | some s =>
      simp only [NotionSync.find_sprint_label, IssueToNotion.sprint_from_labels]
      by_cases h1 : startsWithS (toLowerS s) (str "sprint:") = true
      · have h2 := hs (some s) (List.mem_cons_self _ _) s rfl h1
        simp [h1, h2]
      · rw [if_neg h1, if_neg h1]
        exact ih (fun l' hl' => hs l' (List.mem_cons_of_mem _ hl'))

theorem resolve_sprint_eq (labels : List (Option Str)) (ms : Option (Option (Option Str)))
    (hs : ∀ l ∈ labels, ∀ s, l = some s → startsWithS (toLowerS s) (str "sprint:") = true →
      (trimS (splitFirstVal ':' s)).isEmpty = false)
    (hms : ms ≠ some (some none)) :
    IssueToNotion.resolve_sprint labels ms =
      NotionSync.resolve_sprint_from_issue labels ms := by
  unfold IssueToNotion.resolve_sprint NotionSync.resolve_sprint_from_issue
  rw [sprint_labels_eq labels hs]
  cases hr : IssueToNotion.sprint_from_labels labels with
  | error e => rfl
  | ok r =>
    cases r with
    | some s => rfl
    | none =>
      rcases ms with _ | (_ | (_ | t))
      · rfl
      · rfl
      · exact absurd rfl hms
      · cases t with
        | nil => rfl
        | cons c cs => rfl

theorem build_core_eq (schema : Schema) (pm : PeopleMap) (prm : ProjectMap) (issue : Issue)
    (t : Str) (sv : Option Str) (lm : List (Str × Str))
    (hpm : ∀ k v, (k, v) ∈ pm → ∃ s, v = some s ∧ s.isEmpty = false) :
    IssueToNotion.build_core schema pm prm issue (repo_full_of issue.repository_url) t sv lm =
      NotionSync.build_core schema pm prm issue t sv lm := by
  simp only [IssueToNotion.build_core, NotionSync.build_core]
  rw [people_value_eq schema pm hpm PROP_ASSIGNEE issue.assignee.join]
  simp only [people_lookup_join_none_iff pm hpm]

/-- C9 (amended): the two variants' diff functions agree on ALL inputs, and the
    two payload builders agree whenever (a) the single-issue variant is given
    the same full repository name the sweep variant derives, (b) every value of
    the people map is a non-null non-empty id, (c) no label starting (after
    lowercasing) with `"sprint:"` has a value that strips to empty, and (d) the
    milestone title is not a present-but-null value.  (Outside those conditions
    the builders genuinely diverge — see the counterexample.) -/
theorem variants_equivalent_amended (schema : Schema) (pm : PeopleMap) (prm : ProjectMap)
    (issue : Issue) (repo_full : Str)
    (hrepo : repo_full = repo_full_of issue.repository_url)
    (hpm : ∀ k v, (k, v) ∈ pm → ∃ s, v = some s ∧ s.isEmpty = false)
    (hs : ∀ l ∈ issue.labels, ∀ s, l = some s → startsWithS (toLowerS s) (str "sprint:") = true →
      (trimS (splitFirstVal ':' s)).isEmpty = false)
    (hms : issue.milestoneTitle ≠ some (some none)) :
    IssueToNotion.build_properties schema pm prm issue repo_full =
      NotionSync.build_properties schema pm prm issue ∧
    ∀ e n, IssueToNotion.properties_differ schema e n = NotionSync.properties_differ schema e n := by
  constructor
  · subst hrepo
    unfold IssueToNotion.build_properties NotionSync.build_properties
    rw [resolve_sprint_eq issue.labels issue.milestoneTitle hs hms]
    cases titleOf issue.title with
    | error e => rfl
    | ok t =>
      cases parse_label_map_chk issue.labels [] with
      | error e => rfl
      | ok lm =>
        cases NotionSync.resolve_sprint_from_issue issue.labels issue.milestoneTitle with
        | error e => rfl
        | ok sv => simp [build_core_eq schema pm prm issue t sv lm hpm]
  · exact fun e n => differ_variants_eq schema e n

/-- C9 (counterexample): on an issue labelled `"sprint:"` (empty sprint value)
    the sweep variant omits the Sprint field while the single-issue variant
    emits the value `"Sprint "` — the two payload builders are not identical. -/
theorem variants_diverge_on_empty_sprint_label :
    aget (payloadOf (NotionSync.build_properties [(PROP_SPRINT, str "select")] [] [] issueC9x))
      PROP_SPRINT = none ∧
    aget (payloadOf (IssueToNotion.build_properties [(PROP_SPRINT, str "select")] [] [] issueC9x
      (repo_full_of issueC9x.repository_url))) PROP_SPRINT = some (.selectV (str "Sprint ")) := by
  refine ⟨by decide, by decide⟩

/-- Witness for `variants_equivalent_amended` on a well-formed issue with a
    resolvable assignee, labels and a milestone. -/
theorem variants_equivalent_amended_witness :
    IssueToNotion.build_properties [] [(str "alice", some (str "uid"))] [] issueC9w
        (repo_full_of issueC9w.repository_url) =
      NotionSync.build_properties [] [(str "alice", some (str "uid"))] [] issueC9w :=
  (variants_equivalent_amended [] [(str "alice", some (str "uid"))] [] issueC9w
    (repo_full_of issueC9w.repository_url) rfl
    (by
      intro k v hv
      simp only [List.mem_singleton] at hv
      obtain ⟨rfl, rfl⟩ := Prod.mk.injEq .. |>.mp hv
      exact ⟨str "uid", rfl, rfl⟩)
    (by
      intro l hl s hls hstart
      rw [hls] at hl
      simp only [issueC9w, List.mem_cons, List.not_mem_nil, or_false, Option.some.injEq] at hl
      rcases hl with rfl | rfl
      · exact absurd hstart (by decide)
      · exact absurd hstart (by decide))
    (by decide)).1
